import Mathlib

/-!
# Verification of the OwncastGoPaywall stream access pipeline

Shallow embedding of the paywall server's URL signer
(`internal/security/signer.go`), playlist rewriter and HLS gateway
(`internal/handlers/stream.go`), device binding
(`internal/security/session.go`), rate limiter
(`internal/storage/redis.go`) and recovery handler
(`internal/handlers/recovery.go`), together with proofs of the
specification's claims about them.

Conventions: wall-clock instants and durations are Unix seconds
modelled as `Int`; the HMAC-SHA256 hex digest (a Go standard-library
primitive, not repository code) is an abstract parameter
`mac : String → String` of the signer; byte strings are Lean `String`s.
-/

namespace Paywall

/-! ## Go string primitives used by the sources -/

/-- `strings.HasPrefix s pre`. -/
def goStartsWith (s pre : String) : Bool :=
  pre.data.isPrefixOf s.data

/-- `strings.HasSuffix s suf`. -/
def goEndsWith (s suf : String) : Bool :=
  suf.data.isSuffixOf s.data

/-- `strings.TrimSuffix s "/"`: drop one trailing slash if present. -/
def trimSuffixSlash (s : String) : String :=
  if s.data.getLast? = some '/' then String.mk s.data.dropLast else s

/-- The query-stripping step of `rewritePlaylist`
    (`strings.Index(path, "?")` and slice): keep everything before the
    first `?`. -/
def stripQuery (s : String) : String :=
  String.mk (s.data.takeWhile (fun c => c != '?'))

/-- `bufio.ScanLines` drops one trailing `\r` from each line. -/
def stripCR (l : String) : String :=
  if l.data.getLast? = some '\r' then String.mk l.data.dropLast else l

/-- `strings.Split` for a one-character separator (structural, so the
    kernel can evaluate it). -/
def splitOnChar (sep : Char) : List Char → List (List Char)
  | [] => [[]]
  | c :: rest =>
      if c = sep then [] :: splitOnChar sep rest
      else
        match splitOnChar sep rest with
        | [] => [[c]]
        | h :: t => (c :: h) :: t

/-- The token sequence produced by a `bufio.Scanner` with `ScanLines`
    over `s`: split at `\n`, no empty final token when `s` ends in a
    newline, no token at all for the empty input, `\r` stripped. -/
def goLines (s : String) : List String :=
  if s.data = [] then []
  else
    let parts := (splitOnChar '\n' s.data).map String.mk
    let parts := if s.data.getLast? = some '\n' then parts.dropLast else parts
    parts.map stripCR

/-! ## Decimal formatting (`strconv.FormatInt(n, 10)`) -/

/-- The ASCII digit character for `d < 10`. -/
def digitChar (d : Nat) : Char := Char.ofNat (48 + d)

/-- Decimal digit characters of `n`, most significant first; structural
    recursion on a fuel bound so that the kernel can evaluate it. -/
def natDigitsAux (fuel : Nat) (n : Nat) : List Char :=
  match fuel with
  | 0 => []
  | fuel + 1 =>
      if n < 10 then [digitChar n]
      else natDigitsAux fuel (n / 10) ++ [digitChar (n % 10)]

def natDigits (n : Nat) : List Char := natDigitsAux (n + 1) n

/-- `strconv.FormatUint`-style decimal rendering of a `Nat`. -/
def natStr (n : Nat) : String := String.mk (natDigits n)

/-- `strconv.FormatInt(n, 10)`: minus sign for negative values. -/
def intStr (n : Int) : String :=
  if n < 0 then "-" ++ natStr (-n).toNat else natStr n.toNat

/-- Decimal value of a digit list (for the injectivity proof). -/
def digitsVal (l : List Char) : Nat :=
  l.foldl (fun a c => 10 * a + (c.toNat - 48)) 0

def utf8Bytes (n : Nat) : List Nat :=
  if n < 0x80 then [n]
  else if n < 0x800 then [0xC0 + n / 64, 0x80 + n % 64]
  else if n < 0x10000 then [0xE0 + n / 4096, 0x80 + n / 64 % 64, 0x80 + n % 64]
  else [0xF0 + n / 262144, 0x80 + n / 4096 % 64, 0x80 + n / 64 % 64, 0x80 + n % 64]

/-- Bytes `url.QueryEscape` leaves unescaped: ASCII alphanumerics and
    `-`, `_`, `.`, `~`. -/
def isUnreservedByte (b : Nat) : Bool :=
  (48 ≤ b && b ≤ 57) || (65 ≤ b && b ≤ 90) || (97 ≤ b && b ≤ 122) ||
    b == 45 || b == 95 || b == 46 || b == 126

/-- Uppercase hex digit, as `url.QueryEscape` emits. -/
def hexUpper (d : Nat) : Char :=
  if d < 10 then digitChar d else Char.ofNat (55 + d)

/-- `url.QueryEscape` on a single UTF-8 byte: unreserved bytes pass,
    space becomes `+`, the rest become `%XX`. -/
def escapeByte (b : Nat) : List Char :=
  if isUnreservedByte b then [Char.ofNat b]
  else if b = 32 then ['+']
  else ['%', hexUpper (b / 16), hexUpper (b % 16)]

/-- `url.QueryEscape`. -/
def queryEscape (s : String) : String :=
  String.mk (((s.data.map (fun c => utf8Bytes c.toNat)).flatten.map escapeByte).flatten)

/-- Lexicographic order on code-point sequences; on the ASCII keys
    sorted here it coincides with Go's byte-wise string order. -/
def charListLt : List Char → List Char → Bool
  | _, [] => false
  | [], _ :: _ => true
  | a :: as, b :: bs =>
      if a.toNat < b.toNat then true
      else if b.toNat < a.toNat then false
      else charListLt as bs

/-- `a <= b` in the order used by `sort.Strings` inside
    `url.Values.Encode`. -/
def keyLe (a b : String) : Bool := !charListLt b.data a.data

def insertByKey (p : String × String) : List (String × String) → List (String × String)
  | [] => [p]
  | q :: qs => if keyLe p.1 q.1 then p :: q :: qs else q :: insertByKey p qs

def sortByKey : List (String × String) → List (String × String)
  | [] => []
  | p :: ps => insertByKey p (sortByKey ps)

/-- `url.Values.Encode`: keys sorted, each pair escaped and joined with
    `&` (every key here is single-valued). -/
def urlValuesEncode (params : List (String × String)) : String :=
  String.intercalate "&"
    ((sortByKey params).map (fun p => queryEscape p.1 ++ "=" ++ queryEscape p.2))

/-! ## The URL signer (`internal/security/signer.go`)

`URLSigner` carries the HMAC-SHA256 hex digest for its secret as the
abstract function `mac` (the Go code calls
`hex.EncodeToString(hmac.New(sha256.New, secret).Sum(...))`), and the
configured validity in seconds. -/

structure URLSigner where
  mac : String → String
  validity : Int

/-- The signing string `fmt.Sprintf("%s:%s:%s:%d", streamID, token, path, expires)`
    shared by `SignURL` and `VerifyURL`. -/
def signingInput (streamID token path : String) (expires : Int) : String :=
  streamID ++ ":" ++ token ++ ":" ++ path ++ ":" ++ intStr expires

structure SignedURLParams where
  token : String
  expires : Int
  sig : String
deriving DecidableEq

/-- The `(token, expires, sig)` triple `SignURL` places in the query. -/
def signURLParams (σ : URLSigner) (now : Int) (streamID token path : String) :
    SignedURLParams :=
  let expires := now + σ.validity
  { token := token
    expires := expires
    sig := σ.mac (signingInput streamID token path expires) }

/-- `URLSigner.SignURL`: path plus the encoded query string. -/
def signURL (σ : URLSigner) (now : Int) (streamID token path : String) : String :=
  let p := signURLParams σ now streamID token path
  path ++ "?" ++
    urlValuesEncode [("token", p.token), ("expires", intStr p.expires), ("sig", p.sig)]

inductive VerifyError
  | expired
  | invalidSignature
  | missingExpires
  | invalidExpires
deriving DecidableEq

/-- `URLSigner.VerifyURL`: expiry first, then recompute the MAC and
    compare (`subtle.ConstantTimeCompare` equals byte equality). -/
def verifyURL (σ : URLSigner) (now : Int) (streamID path : String)
    (p : SignedURLParams) : Option VerifyError :=
  if now > p.expires then some .expired
  else if σ.mac (signingInput streamID p.token path p.expires) = p.sig then none
  else some .invalidSignature

/-- `strconv.ParseInt(s, 10, 64)`: optional sign, at least one digit,
    only digits, 64-bit range. -/
def parseGoInt (s : String) : Option Int :=
  match s.data with
  | [] => none
  | c :: rest =>
    let neg := c = '-'
    let ds := if c = '-' ∨ c = '+' then rest else c :: rest
    if ds = [] then none
    else if ds.all (fun d => 48 ≤ d.toNat && d.toNat ≤ 57) then
      let n := digitsVal ds
      if neg then
        if n ≤ 2 ^ 63 then some (-(n : Int)) else none
      else
        if n < 2 ^ 63 then some (n : Int) else none
    else none

/-- The three `Get` results `VerifyURLFromRequest` reads from the query
    (the empty string when the parameter is absent). -/
structure QueryParams where
  token : String
  expires : String
  sig : String

/-- `URLSigner.VerifyURLFromRequest`. -/
def verifyURLFromRequest (σ : URLSigner) (now : Int) (streamID path : String)
    (q : QueryParams) : Option VerifyError :=
  if q.expires = "" then some .missingExpires
  else
    match parseGoInt q.expires with
    | none => some .invalidExpires
    | some e => verifyURL σ now streamID path { token := q.token, expires := e, sig := q.sig }

/-! ## The playlist rewriter (`internal/handlers/stream.go`)

`hlsURLRegex = ^[^#].*\.(ts|m4s|m3u8)(\?.*)?$` is embedded as an
executable matcher: a line matches iff it is nonempty, does not start
with `#`, and can be split as `stem` plus an optional `?…` query where
`stem` ends in `.ts`, `.m4s` or `.m3u8` preceded by at least one
character. -/

/-- `stem` ends in `ext` with at least one character before it. -/
def extOK (stem ext : List Char) : Bool :=
  decide (ext.length + 1 ≤ stem.length) && ext.isSuffixOf stem

def stemOK (stem : List Char) : Bool :=
  extOK stem ['.', 't', 's'] || extOK stem ['.', 'm', '4', 's'] ||
    extOK stem ['.', 'm', '3', 'u', '8']

/-- Scan the line; at each `?` the regex may either end the stem there
    (query group) or keep the `?` inside `.*`. -/
def hlsAux (stem : List Char) : List Char → Bool
  | [] => stemOK stem
  | c :: rest =>
      if c = '?' then stemOK stem || hlsAux (stem ++ [c]) rest
      else hlsAux (stem ++ [c]) rest

/-- `hlsURLRegex.MatchString line`. -/
def hlsLineMatch (line : String) : Bool :=
  match line.data with
  | [] => false
  | c :: _ => (c != '#') && hlsAux [] line.data

/-- One loop iteration of `rewritePlaylist`: URL lines are rewritten to
    a signed proxy URL (query stripped, `base_dir` prepended to
    relative paths), all other lines pass through. -/
def rewriteLine (σ : URLSigner) (now : Int) (streamID token baseDir : String)
    (line : String) : String :=
  if hlsLineMatch line then
    let originalPath := stripQuery line
    let originalPath :=
      if !goStartsWith originalPath "/" && !goStartsWith originalPath "http" then
        baseDir ++ originalPath
      else originalPath
    signURL σ now streamID token ("/stream/" ++ streamID ++ "/hls/" ++ originalPath)
  else line

/-- `StreamHandler.rewritePlaylist`: scanner lines, each rewritten and
    terminated with `\n`. -/
def rewritePlaylist (σ : URLSigner) (now : Int) (streamID token baseDir : String)
    (content : String) : String :=
  String.join ((goLines content).map
    (fun l => rewriteLine σ now streamID token baseDir l ++ "\n"))


theorem digitChar_toNat {d : Nat} (h : d < 10) : (digitChar d).toNat = 48 + d := by
  interval_cases d <;> rfl

theorem digitChar_bounds {d : Nat} (h : d < 10) :
    48 ≤ (digitChar d).toNat ∧ (digitChar d).toNat ≤ 57 := by
  interval_cases d <;> exact ⟨by decide, by decide⟩

theorem digitsVal_append_one (l : List Char) (c : Char) :
    digitsVal (l ++ [c]) = 10 * digitsVal l + (c.toNat - 48) := by
  simp [digitsVal, List.foldl_append]

theorem natDigitsAux_irrel (fuel₁ fuel₂ n : Nat) (h₁ : n < fuel₁) (h₂ : n < fuel₂) :
    natDigitsAux fuel₁ n = natDigitsAux fuel₂ n := by
  induction fuel₁ generalizing fuel₂ n with
  | zero => omega
  | succ f ih =>
      cases fuel₂ with
      | zero => omega
      | succ g =>
          rw [natDigitsAux, natDigitsAux]
          by_cases hlt : n < 10
          · rw [if_pos hlt, if_pos hlt]
          · rw [if_neg hlt, if_neg hlt,
              ih g (n / 10) (by omega) (by omega)]

theorem digitsVal_natDigitsAux (fuel n : Nat) (h : n < fuel) :
    digitsVal (natDigitsAux fuel n) = n := by
  induction fuel generalizing n with
  | zero => omega
  | succ f ih =>
      rw [natDigitsAux]
      by_cases hlt : n < 10
      · rw [if_pos hlt]
        simp [digitsVal, digitChar_toNat hlt]
      · rw [if_neg hlt, digitsVal_append_one,
          ih (n / 10) (by omega), digitChar_toNat (Nat.mod_lt _ (by omega))]
        omega

theorem digitsVal_natDigits (n : Nat) : digitsVal (natDigits n) = n :=
  digitsVal_natDigitsAux (n + 1) n (by omega)

theorem natDigits_injective : Function.Injective natDigits := by
  intro a b h
  have := digitsVal_natDigits a
  rw [h, digitsVal_natDigits] at this
  omega

theorem natDigits_ne_nil (n : Nat) : natDigits n ≠ [] := by
  rw [natDigits, natDigitsAux]
  split <;> simp

theorem natDigitsAux_all_digit (fuel n : Nat) (h : n < fuel) :
    ∀ c ∈ natDigitsAux fuel n, 48 ≤ c.toNat ∧ c.toNat ≤ 57 := by
  induction fuel generalizing n with
  | zero => omega
  | succ f ih =>
      rw [natDigitsAux]
      by_cases hlt : n < 10
      · rw [if_pos hlt]
        intro c hc
        simp at hc
        subst hc
        exact digitChar_bounds hlt
      · rw [if_neg hlt]
        intro c hc
        rcases List.mem_append.1 hc with h1 | h2
        · exact ih (n / 10) (by omega) c h1
        · simp at h2
          subst h2
          exact digitChar_bounds (Nat.mod_lt _ (by omega))

theorem natDigits_all_digit (n : Nat) :
    ∀ c ∈ natDigits n, 48 ≤ c.toNat ∧ c.toNat ≤ 57 :=
  natDigitsAux_all_digit (n + 1) n (by omega)

theorem natStr_injective : Function.Injective natStr := by
  intro a b h
  exact natDigits_injective (by injection h)

theorem data_append (a b : String) : (a ++ b).data = a.data ++ b.data := by
  cases a; cases b; rfl

theorem intStr_injective : Function.Injective intStr := by
  intro a b h
  unfold intStr at h
  by_cases ha : a < 0 <;> by_cases hb : b < 0 <;>
    simp only [ha, hb, if_pos, if_neg, if_true, if_false] at h
  · have hd := congrArg String.data h
    rw [data_append, data_append] at hd
    have hdig : natDigits (-a).toNat = natDigits (-b).toNat :=
      List.append_cancel_left hd
    have := natDigits_injective hdig
    omega
  · exfalso
    have hd := congrArg String.data h
    rw [data_append] at hd
    have hne := natDigits_ne_nil b.toNat
    cases hh : natDigits b.toNat with
    | nil => exact hne hh
    | cons c cs =>
        have hcd : ('-' :: (natStr (-a).toNat).data) = c :: cs := by
          simpa [natStr, hh] using hd
        have hc : c = '-' := by injection hcd with h1 _; exact h1.symm
        have := natDigits_all_digit b.toNat c (by rw [hh]; exact List.mem_cons_self _ _)
        rw [hc] at this
        exact absurd this (by decide)
  · exfalso
    have hd := congrArg String.data h
    rw [data_append] at hd
    have hne := natDigits_ne_nil a.toNat
    cases hh : natDigits a.toNat with
    | nil => exact hne hh
    | cons c cs =>
        have hcd : c :: cs = ('-' :: (natStr (-b).toNat).data) := by
          simpa [natStr, hh] using hd
        have hc : c = '-' := by simpa using congrArg List.head? hcd
        have := natDigits_all_digit a.toNat c (by rw [hh]; exact List.mem_cons_self _ _)
        rw [hc] at this
        exact absurd this (by decide)
  · have := natStr_injective h
    omega

/-! ## Data model (`internal/models/models.go`, `internal/storage/redis.go`) -/

inductive StreamStatus
  | scheduled
  | live
  | ended
deriving DecidableEq

structure UUID where
  str : String
deriving DecidableEq

/-- The fields of `models.Stream` the core reads; `owncastURL` and
    `streamKey` are the secrets tagged `json:"-"` in the source. -/
structure Stream where
  id : UUID
  slug : String
  title : String
  priceCents : Int
  status : StreamStatus
  owncastURL : String
  streamKey : String
deriving DecidableEq

/-- Redis `storage.SessionData`. -/
structure SessionData where
  token : String
  streamID : String
  email : String
  paymentID : String
  expiresAt : Int
deriving DecidableEq

/-- Redis `models.DeviceInfo`. -/
structure DeviceInfo where
  deviceID : String
  ip : String
  userAgent : String
  lastSeen : Int
deriving DecidableEq

/-- An HTTP response: status code and body. -/
structure Response where
  status : Nat
  body : String
deriving DecidableEq

/-! ## JSON helpers (`writeJSON`, `writeJSONError`) -/

def jsonEscapeChar (c : Char) : List Char :=
  if c = '"' then ['\\', '"']
  else if c = '\\' then ['\\', '\\']
  else [c]

def jsonStr (s : String) : String :=
  "\"" ++ String.mk ((s.data.map jsonEscapeChar).flatten) ++ "\""

/-- Body written by `writeJSONError`: `models.APIError` with only the
    error field set. -/
def jsonError (msg : String) : String :=
  "\x7b\"error\":" ++ jsonStr msg ++ "\x7d"

def statusStr : StreamStatus → String
  | .scheduled => "scheduled"
  | .live => "live"
  | .ended => "ended"

/-- Go `json.Marshal` of `models.Stream`: the fields tagged `json:"-"`
    (`OwncastURL`, `StreamKey`, `ContainerName`, `TranscodeConfig`) are
    omitted by the encoder; of the serialized fields this model tracks
    `id`, `slug`, `title`, `price_cents` and `status`. -/
def marshalStream (st : Stream) : String :=
  "\x7b\"id\":" ++ jsonStr st.id.str ++ ",\"slug\":" ++ jsonStr st.slug ++
    ",\"title\":" ++ jsonStr st.title ++ ",\"price_cents\":" ++ intStr st.priceCents ++
    ",\"status\":" ++ jsonStr (statusStr st.status) ++ "\x7d"

/-! ## Public catalog (`StreamHandler.GetStreamInfo`) -/

structure CatalogEnv where
  getStreamBySlug : String → Option Stream

def getStreamInfo (E : CatalogEnv) (slug : String) : Response :=
  if slug = "" then ⟨400, jsonError "Stream slug is required"⟩
  else
    match E.getStreamBySlug slug with
    | none => ⟨404, jsonError "Stream not found"⟩
    | some st => ⟨200, marshalStream st⟩

/-! ## HLS gateway (`StreamHandler.ServeHLS`) -/

/-- Index of the last `/` (Go `strings.LastIndex(p, "/")`), `none` when
    absent. -/
def lastSlashIdx (l : List Char) : Option Nat :=
  match l.reverse.findIdx? (fun c => c = '/') with
  | none => none
  | some i => some (l.length - 1 - i)

/-- The `baseDir` computed by `servePlaylist`: directory part of the
    playlist path including the trailing slash, empty when the path has
    no slash past position zero. -/
def baseDirOf (p : String) : String :=
  match lastSlashIdx p.data with
  | some idx => if 0 < idx then String.mk (p.data.take (idx + 1)) else ""
  | none => ""

/-- The path parsing at the top of `ServeHLS`: trim one leading `/`,
    split on `/`, require at least four parts, take `parts[1]` as the
    stream id and rejoin `parts[3:]` as the HLS path. -/
def parseStreamPath (reqPath : String) : Option (String × String) :=
  let trimmed := if goStartsWith reqPath "/" then String.mk (reqPath.data.drop 1) else reqPath
  let parts := (splitOnChar '/' trimmed.data).map String.mk
  if parts.length < 4 then none
  else some (parts.getD 1 "", String.intercalate "/" (parts.drop 3))

/-- The collaborators `ServeHLS` consults, as pure functions:
    `uuid.Parse`, the stream store (through `getStreamCached`), the
    Redis session store, and the upstream fetch (playlist and segment
    caches and singleflight collapse into one pure fetch; `none` stands
    for a fetch error or a non-200). -/
structure HLSEnv where
  uuidParse : String → Option UUID
  getStream : UUID → Option Stream
  getSession : String → Option SessionData
  fetch : String → Option String
  signer : URLSigner
  now : Int

/-- `StreamHandler.ServeHLS`, followed by `servePlaylist` or
    `serveSegment` on the success path. -/
def serveHLS (E : HLSEnv) (reqPath : String) (q : QueryParams) : Response :=
  match parseStreamPath reqPath with
  | none => ⟨400, "Invalid path"⟩
  | some (streamID, hlsPath) =>
    match E.uuidParse streamID with
    | none => ⟨400, "Invalid stream ID"⟩
    | some u =>
      match E.getStream u with
      | none => ⟨404, "Stream not found"⟩
      | some stream =>
        if stream.status ≠ .live then ⟨403, "Stream is not live"⟩
        else
          match verifyURLFromRequest E.signer E.now streamID
              ("/stream/" ++ streamID ++ "/hls/" ++ hlsPath) q with
          | some _ => ⟨403, "Invalid or expired signature"⟩
          | none =>
            let token := q.token
            let owncastURL := trimSuffixSlash stream.owncastURL ++ "/hls/" ++ hlsPath
            if goEndsWith hlsPath ".m3u8" then
              match E.getSession token with
              | none => ⟨401, "Session expired"⟩
              | some session =>
                if session.streamID ≠ streamID then
                  ⟨403, "Token not valid for this stream"⟩
                else
                  match E.fetch owncastURL with
                  | none => ⟨502, "Failed to fetch stream"⟩
                  | some content =>
                    ⟨200, rewritePlaylist E.signer E.now stream.id.str token
                      (baseDirOf hlsPath) content⟩
            else
              match E.fetch owncastURL with
              | none => ⟨502, "Failed to fetch segment"⟩
              | some data => ⟨200, data⟩

/-! ## Device binding (`SessionManager.ValidateDevice`) -/

structure DeviceValidationResult where
  allowed : Bool
  isNewDevice : Bool
  isSameDevice : Bool
  timedOut : Bool
  activeDevice : String
  waitTime : Int
deriving DecidableEq

/-- `SessionManager.ValidateDevice`: the validation result together
    with the device binding the call leaves in the store for this
    token. -/
def validateDevice (heartbeatTimeout now : Int) (current : Option DeviceInfo)
    (deviceID ip userAgent : String) : DeviceValidationResult × Option DeviceInfo :=
  match current with
  | none =>
      (⟨true, true, false, false, "", 0⟩, some ⟨deviceID, ip, userAgent, now⟩)
  | some cur =>
      if cur.deviceID = deviceID then
        (⟨true, false, true, false, "", 0⟩, some { cur with lastSeen := now })
      else
        if now - cur.lastSeen > heartbeatTimeout then
          (⟨true, true, false, true, "", 0⟩, some ⟨deviceID, ip, userAgent, now⟩)
        else
          (⟨false, false, false, false, cur.deviceID,
              heartbeatTimeout - (now - cur.lastSeen)⟩, some cur)

/-! ## Heartbeat (`StreamHandler.Heartbeat`) -/

structure HeartbeatRequest where
  deviceID : String
deriving DecidableEq

/-- Collaborators of `Heartbeat`: session store, `uuid.Parse`, the JSON
    decoding of the request body (`none` for malformed JSON), and the
    device-binding store keyed by token. -/
structure HeartbeatEnv where
  getSession : String → Option SessionData
  uuidParse : String → Option UUID
  decodeBody : String → Option HeartbeatRequest
  deviceOf : String → Option DeviceInfo
  heartbeatTimeout : Int
  signer : URLSigner
  baseURL : String
  now : Int

/-- The 200 body `Heartbeat` writes (Go marshals the map with sorted
    keys: message, playlist_url, success). -/
def heartbeatOK (E : HeartbeatEnv) (streamID token : String) : Response :=
  ⟨200, "\x7b\"message\":\"Heartbeat received\",\"playlist_url\":" ++
    jsonStr (E.baseURL ++ signURL E.signer E.now streamID token
      ("/stream/" ++ streamID ++ "/hls/stream.m3u8")) ++ ",\"success\":true\x7d"⟩

/-- Token resolution at the top of `Heartbeat`: the cookie value when
    the cookie is present and non-empty, else the query parameter. -/
def heartbeatToken (cookieToken : Option String) (queryToken : String) : String :=
  let t0 := match cookieToken with
    | some c => c
    | none => ""
  if t0 = "" then queryToken else t0

/-- `StreamHandler.Heartbeat`: token from the cookie, else the query;
    body decoded leniently (absent body, bad JSON, or a missing
    device_id field all leave `DeviceID` empty); device validation runs
    only for a non-empty device id. Returns the response and the
    device-binding store it leaves behind. -/
def heartbeat (E : HeartbeatEnv) (streamID : String) (cookieToken : Option String)
    (queryToken : String) (body : Option String) (ip userAgent : String) :
    Response × (String → Option DeviceInfo) :=
  let token := heartbeatToken cookieToken queryToken
  if token = "" then (⟨401, jsonError "Missing access token"⟩, E.deviceOf)
  else
    let req : HeartbeatRequest :=
      match body with
      | none => ⟨""⟩
      | some b =>
        match E.decodeBody b with
        | none => ⟨""⟩
        | some r => r
    match E.getSession token with
    | none => (⟨401, jsonError "Invalid or expired token"⟩, E.deviceOf)
    | some session =>
      if session.streamID ≠ streamID then
        (⟨403, jsonError "Token not valid for this stream"⟩, E.deviceOf)
      else
        match E.uuidParse session.streamID with
        | none => (⟨500, jsonError "Invalid stream ID in session"⟩, E.deviceOf)
        | some _ =>
          if req.deviceID ≠ "" then
            let r := validateDevice E.heartbeatTimeout E.now (E.deviceOf token)
              req.deviceID ip userAgent
            if !r.1.allowed then
              (⟨409, jsonError "Another device is currently watching this stream"⟩,
                E.deviceOf)
            else
              (heartbeatOK E streamID token,
                fun t => if t = token then r.2 else E.deviceOf t)
          else
            (heartbeatOK E streamID token, E.deviceOf)

/-! ## Rate limiting (`RedisStore.CheckAndIncrementRateLimit`) and
recovery (`RecoveryHandler.RecoverToken`) -/

structure RLEntry where
  count : Nat
  expiresAt : Int
deriving DecidableEq

/-- Redis key expiry: the value a `GET` observes at `now` (`none` once
    the window TTL has elapsed). -/
def rlLive (e : Option RLEntry) (now : Int) : Option RLEntry :=
  match e with
  | none => none
  | some e => if now < e.expiresAt then some e else none

/-- The Lua script of `CheckAndIncrementRateLimit`: denied without
    increment when the live counter has reached the limit; otherwise
    `INCR`, and `EXPIRE` (setting the window) only when the `INCR`
    created the key. -/
def checkAndIncrementRateLimit (st : Option RLEntry) (now : Int) (limit : Nat)
    (windowSecs : Int) : Bool × Option RLEntry :=
  match rlLive st now with
  | some e =>
      if e.count ≥ limit then (false, some e)
      else (true, some { e with count := e.count + 1 })
  | none => (true, some ⟨1, now + windowSecs⟩)

def RLState : Type := String → Option RLEntry

/-- Key layout `fmt.Sprintf("%s%s:%s", "ratelimit:", keyType, id)`. -/
def rlKey (keyType identifier : String) : String :=
  "ratelimit:" ++ keyType ++ ":" ++ identifier

/-- `RedisStore.CheckRecoveryRateLimit`: the e-mail counter first (one
    hour window), then the IP counter; a denied e-mail check returns
    without touching the IP counter. -/
def checkRecoveryRateLimit (st : RLState) (now : Int) (emailHash ip : String)
    (emailLimit ipLimit : Nat) : Bool × RLState :=
  let kE := rlKey "recover:email:" emailHash
  let rE := checkAndIncrementRateLimit (st kE) now emailLimit 3600
  let st1 : RLState := fun k => if k = kE then rE.2 else st k
  if !rE.1 then (false, st1)
  else
    let kI := rlKey "recover:ip:" ip
    let rI := checkAndIncrementRateLimit (st1 kI) now ipLimit 3600
    let st2 : RLState := fun k => if k = kI then rI.2 else st1 k
    (rI.1, st2)

/-- Sequential calls against one rate-limit counter: the list of
    allowed/denied outcomes and the final counter state. -/
def applyRL (limit : Nat) (w : Int) : List Int → Option RLEntry → List Bool × Option RLEntry
  | [], st => ([], st)
  | t :: ts, st =>
      let r := checkAndIncrementRateLimit st t limit w
      let rest := applyRL limit w ts r.2
      (r.1 :: rest.1, rest.2)

structure RecoverRequest where
  streamSlug : String
  email : String
deriving DecidableEq

/-- The parts of `models.Payment` the recovery path reads. -/
structure Payment where
  id : String
  streamID : UUID
  email : String
  amountCents : Int
  accessToken : String
  tokenExpiry : Option Int
deriving DecidableEq

/-- Collaborators of `RecoverToken`: the e-mail hash for the rate-limit
    key, the stream and completed-payment lookups, the whitelist check,
    the configured limits, and the freshly generated token. -/
structure RecoveryEnv where
  hashEmail : String → String
  getStreamBySlug : String → Option Stream
  getCompletedPayment : String → UUID → Option Payment
  isWhitelisted : UUID → String → Bool
  perEmailLimit : Nat
  perIPLimit : Nat
  newToken : String
  sessionDuration : Int
  baseURL : String
  now : Int

/-- The 200 body of a successful recovery (map marshalled with sorted
    keys: message, redirect_url, success). -/
def recoverOK (E : RecoveryEnv) (stream : Stream) : Response :=
  ⟨200, "\x7b\"message\":\"Access recovered successfully\",\"redirect_url\":" ++
    jsonStr (E.baseURL ++ "/watch/" ++ stream.slug) ++ ",\"success\":true\x7d"⟩

/-- `RecoveryHandler.RecoverToken`: body validation, then the atomic
    rate-limit check (429 before any payment lookup), then stream,
    payment and whitelist resolution, the expiry check, and token
    re-issue. Returns the response and the rate-limit store it leaves
    behind. -/
def recoverToken (E : RecoveryEnv) (req : Option RecoverRequest) (clientIP : String)
    (st : RLState) : Response × RLState :=
  match req with
  | none => (⟨400, jsonError "Invalid request body"⟩, st)
  | some r =>
    if r.streamSlug = "" then (⟨400, jsonError "stream_slug is required"⟩, st)
    else if r.email = "" then (⟨400, jsonError "email is required"⟩, st)
    else
      let rl := checkRecoveryRateLimit st E.now (E.hashEmail r.email) clientIP
        E.perEmailLimit E.perIPLimit
      if !rl.1 then
        (⟨429, jsonError "Too many recovery attempts. Please try again later."⟩, rl.2)
      else
        match E.getStreamBySlug r.streamSlug with
        | none => (⟨404, jsonError "No active purchase found for this email."⟩, rl.2)
        | some stream =>
          let payment :=
            match E.getCompletedPayment r.email stream.id with
            | some p => some p
            | none =>
              if E.isWhitelisted stream.id r.email then
                some ⟨"whitelist", stream.id, r.email, 0, E.newToken,
                  some (E.now + E.sessionDuration)⟩
              else none
          match payment with
          | none => (⟨404, jsonError "No active purchase found for this email."⟩, rl.2)
          | some p =>
            match p.tokenExpiry with
            | some exp =>
              if E.now > exp then (⟨410, jsonError "Your access has expired."⟩, rl.2)
              else (recoverOK E stream, rl.2)
            | none => (recoverOK E stream, rl.2)

/-! ## Concrete fixtures used by witnesses -/

def wSigner : URLSigner := ⟨fun s => s, 60⟩

def wStream : Stream := ⟨⟨"s1"⟩, "main", "Title", 990, .live, "http://owncast:8080", "sk"⟩

def wUuidParse : String → Option UUID := fun s => if s = "s1" then some ⟨"s1"⟩ else none

def wGetStream : UUID → Option Stream := fun u => if u = ⟨"s1"⟩ then some wStream else none

def wQuery : QueryParams := ⟨"t", "60", "s1:t:/stream/s1/hls/stream.m3u8:60"⟩

def wEnvNoSession : HLSEnv :=
  ⟨wUuidParse, wGetStream, fun _ => none, fun _ => some "#EXTM3U", wSigner, 0⟩

def wEnvWrongStream : HLSEnv :=
  ⟨wUuidParse, wGetStream, fun t => if t = "t" then some ⟨"t", "s2", "e", "p", 999⟩ else none,
    fun _ => some "#EXTM3U", wSigner, 0⟩

def wEnvMatch : HLSEnv :=
  ⟨wUuidParse, wGetStream, fun t => if t = "t" then some ⟨"t", "s1", "e", "p", 999⟩ else none,
    fun _ => some "#EXTM3U", wSigner, 0⟩

def wHbEnv (dev : Option DeviceInfo) (decode : String → Option HeartbeatRequest) :
    HeartbeatEnv :=
  ⟨fun t => if t = "t" then some ⟨"t", "s1", "e", "p", 999⟩ else none,
    wUuidParse, decode, fun t => if t = "t" then dev else none, 45, wSigner,
    "https://pw.example", 0⟩

def wRecEnv : RecoveryEnv :=
  ⟨fun e => e, fun s => if s = "main" then some wStream else none,
    fun _ _ => none, fun _ _ => false, 5, 20, "newtok", 86400, "https://pw.example", 0⟩

/-! ## Claims about the URL signer -/

/-- C1. For every `(stream_id, token, path)`, verifying the parameters
    produced by `SignURL` succeeds at every instant `t ≤ expires`
    (in particular anywhere within `signature_validity` of signing) and
    yields the expired error at every instant strictly after
    `expires`. -/
theorem signURL_verifyURL_round_trip (σ : URLSigner) (signTime t : Int)
    (streamID token path : String) :
    (t ≤ (signURLParams σ signTime streamID token path).expires →
      verifyURL σ t streamID path (signURLParams σ signTime streamID token path) = none) ∧
    ((signURLParams σ signTime streamID token path).expires < t →
      verifyURL σ t streamID path (signURLParams σ signTime streamID token path) =
        some .expired) := by
  constructor
  · intro h
    simp [verifyURL, signURLParams] at h ⊢
    omega
  · intro h
    simp [verifyURL, signURLParams] at h ⊢
    omega

/-- Witness for C1 at concrete inputs: signing at time `0` with a
    30-second validity verifies at `t = 30` and is expired at
    `t = 31`. -/
theorem signURL_verifyURL_round_trip_witness :
    (30 ≤ (signURLParams ⟨fun s => s, 30⟩ 0 "s1" "tok" "/p").expires ∧
      verifyURL ⟨fun s => s, 30⟩ 30 "s1" "/p" (signURLParams ⟨fun s => s, 30⟩ 0 "s1" "tok" "/p") = none) ∧
    ((signURLParams ⟨fun s => s, 30⟩ 0 "s1" "tok" "/p").expires < 31 ∧
      verifyURL ⟨fun s => s, 30⟩ 31 "s1" "/p" (signURLParams ⟨fun s => s, 30⟩ 0 "s1" "tok" "/p") =
        some .expired) :=
  ⟨⟨by decide, (signURL_verifyURL_round_trip ⟨fun s => s, 30⟩ 0 30 "s1" "tok" "/p").1 (by decide)⟩,
   ⟨by decide, (signURL_verifyURL_round_trip ⟨fun s => s, 30⟩ 0 31 "s1" "tok" "/p").2 (by decide)⟩⟩

/-! ## Injectivity of the signing string in each component -/

theorem string_data_inj {a b : String} (h : a.data = b.data) : a = b :=
  congrArg String.mk h

theorem append_middle_cancel {α : Type} (p s x y : List α)
    (h : p ++ x ++ s = p ++ y ++ s) : x = y := by
  rw [List.append_assoc, List.append_assoc] at h
  exact List.append_cancel_right (List.append_cancel_left h)

theorem signingInput_data (a b c : String) (e : Int) :
    (signingInput a b c e).data =
      a.data ++ [':'] ++ b.data ++ [':'] ++ c.data ++ [':'] ++ (intStr e).data := by
  simp [signingInput, data_append]

theorem signingInput_inj_streamID {a₁ a₂ b c : String} {e : Int}
    (h : signingInput a₁ b c e = signingInput a₂ b c e) : a₁ = a₂ := by
  have hd := congrArg String.data h
  rw [signingInput_data, signingInput_data] at hd
  apply string_data_inj
  apply append_middle_cancel ([] : List Char)
    ([':'] ++ b.data ++ [':'] ++ c.data ++ [':'] ++ (intStr e).data)
  simpa [List.append_assoc] using hd

theorem signingInput_inj_token {a b₁ b₂ c : String} {e : Int}
    (h : signingInput a b₁ c e = signingInput a b₂ c e) : b₁ = b₂ := by
  have hd := congrArg String.data h
  rw [signingInput_data, signingInput_data] at hd
  apply string_data_inj
  apply append_middle_cancel (a.data ++ [':'])
    ([':'] ++ c.data ++ [':'] ++ (intStr e).data)
  simpa [List.append_assoc] using hd

theorem signingInput_inj_path {a b c₁ c₂ : String} {e : Int}
    (h : signingInput a b c₁ e = signingInput a b c₂ e) : c₁ = c₂ := by
  have hd := congrArg String.data h
  rw [signingInput_data, signingInput_data] at hd
  apply string_data_inj
  apply append_middle_cancel (a.data ++ [':'] ++ b.data ++ [':'])
    ([':'] ++ (intStr e).data)
  simpa [List.append_assoc] using hd

theorem signingInput_inj_expires {a b c : String} {e₁ e₂ : Int}
    (h : signingInput a b c e₁ = signingInput a b c e₂) : e₁ = e₂ := by
  have hd := congrArg String.data h
  rw [signingInput_data, signingInput_data] at hd
  apply intStr_injective
  apply string_data_inj
  apply append_middle_cancel (a.data ++ [':'] ++ b.data ++ [':'] ++ c.data ++ [':'])
    ([] : List Char)
  simpa [List.append_assoc] using hd

theorem verifyURL_eq_invalid (σ : URLSigner) (now : Int) (streamID path : String)
    (p : SignedURLParams) (h1 : ¬ now > p.expires)
    (h2 : σ.mac (signingInput streamID p.token path p.expires) ≠ p.sig) :
    verifyURL σ now streamID path p = some .invalidSignature := by
  rw [verifyURL, if_neg h1, if_neg h2]

/-- C2. Signature binding: with a collision-free MAC, substituting any
    single one of `stream_id`, `token`, `path` or `expires` in a URL
    signed by `SignURL` — keeping the produced `sig` — makes `VerifyURL`
    reject with `invalid_signature` (at any instant before the relevant
    expiry), and substituting `sig` itself by any different value is
    also rejected with `invalid_signature`. -/
theorem verifyURL_signature_binding (σ : URLSigner)
    (hinj : Function.Injective σ.mac) (signTime t : Int)
    (streamID token path : String) :
    (∀ streamID2, streamID2 ≠ streamID →
      t ≤ (signURLParams σ signTime streamID token path).expires →
      verifyURL σ t streamID2 path (signURLParams σ signTime streamID token path) =
        some .invalidSignature) ∧
    (∀ token2, token2 ≠ token →
      t ≤ (signURLParams σ signTime streamID token path).expires →
      verifyURL σ t streamID path
        { signURLParams σ signTime streamID token path with token := token2 } =
        some .invalidSignature) ∧
    (∀ path2, path2 ≠ path →
      t ≤ (signURLParams σ signTime streamID token path).expires →
      verifyURL σ t streamID path2 (signURLParams σ signTime streamID token path) =
        some .invalidSignature) ∧
    (∀ expires2, expires2 ≠ (signURLParams σ signTime streamID token path).expires →
      t ≤ expires2 →
      verifyURL σ t streamID path
        { signURLParams σ signTime streamID token path with expires := expires2 } =
        some .invalidSignature) ∧
    (∀ sig2, sig2 ≠ (signURLParams σ signTime streamID token path).sig →
      t ≤ (signURLParams σ signTime streamID token path).expires →
      verifyURL σ t streamID path
        { signURLParams σ signTime streamID token path with sig := sig2 } =
        some .invalidSignature) := by
  refine ⟨?_, ?_, ?_, ?_, ?_⟩
  · intro s2 hne ht
    replace ht : t ≤ signTime + σ.validity := ht
    refine verifyURL_eq_invalid _ _ _ _ _ ?_ ?_
    · intro hgt
      replace hgt : t > signTime + σ.validity := hgt
      omega
    · intro hEq
      exact hne (signingInput_inj_streamID (hinj hEq))
  · intro tok2 hne ht
    replace ht : t ≤ signTime + σ.validity := ht
    refine verifyURL_eq_invalid _ _ _ _ _ ?_ ?_
    · intro hgt
      replace hgt : t > signTime + σ.validity := hgt
      omega
    · intro hEq
      exact hne (signingInput_inj_token (hinj hEq))
  · intro p2 hne ht
    replace ht : t ≤ signTime + σ.validity := ht
    refine verifyURL_eq_invalid _ _ _ _ _ ?_ ?_
    · intro hgt
      replace hgt : t > signTime + σ.validity := hgt
      omega
    · intro hEq
      exact hne (signingInput_inj_path (hinj hEq))
  · intro e2 hne ht
    replace hne : e2 ≠ signTime + σ.validity := hne
    refine verifyURL_eq_invalid _ _ _ _ _ ?_ ?_
    · intro hgt
      replace hgt : t > e2 := hgt
      omega
    · intro hEq
      exact hne (signingInput_inj_expires (hinj hEq))
  · intro sig2 hne ht
    replace ht : t ≤ signTime + σ.validity := ht
    refine verifyURL_eq_invalid _ _ _ _ _ ?_ ?_
    · intro hgt
      replace hgt : t > signTime + σ.validity := hgt
      omega
    · intro hEq
      exact hne hEq.symm

/-- Witness for C2 at concrete inputs (identity MAC, which is
    injective): each of the five substitutions is rejected with
    `invalid_signature`. -/
theorem verifyURL_signature_binding_witness :
    (verifyURL ⟨fun s => s, 30⟩ 5 "s2" "/p"
      (signURLParams ⟨fun s => s, 30⟩ 0 "s1" "tok" "/p") = some .invalidSignature) ∧
    (verifyURL ⟨fun s => s, 30⟩ 5 "s1" "/p"
      { signURLParams ⟨fun s => s, 30⟩ 0 "s1" "tok" "/p" with token := "tok2" } =
      some .invalidSignature) ∧
    (verifyURL ⟨fun s => s, 30⟩ 5 "s1" "/q"
      (signURLParams ⟨fun s => s, 30⟩ 0 "s1" "tok" "/p") = some .invalidSignature) ∧
    (verifyURL ⟨fun s => s, 30⟩ 5 "s1" "/p"
      { signURLParams ⟨fun s => s, 30⟩ 0 "s1" "tok" "/p" with expires := 99 } =
      some .invalidSignature) ∧
    (verifyURL ⟨fun s => s, 30⟩ 5 "s1" "/p"
      { signURLParams ⟨fun s => s, 30⟩ 0 "s1" "tok" "/p" with sig := "bogus" } =
      some .invalidSignature) := by
  obtain ⟨h1, h2, h3, h4, h5⟩ :=
    verifyURL_signature_binding ⟨fun s => s, 30⟩ (fun _ _ h => h) 0 5 "s1" "tok" "/p"
  exact ⟨h1 "s2" (by decide) (by decide), h2 "tok2" (by decide) (by decide),
    h3 "/q" (by decide) (by decide), h4 99 (by decide) (by decide),
    h5 "bogus" (by decide) (by decide)⟩

/-! ## Claims about the playlist rewriter -/

theorem goStartsWith_append (p r : String) : goStartsWith (p ++ r) p = true := by
  rw [goStartsWith]
  exact List.isPrefixOf_iff_prefix.mpr ⟨r.data, (data_append p r).symm⟩

theorem goStartsWith_of_eq_append {s p r : String} (h : s = p ++ r) :
    goStartsWith s p = true := h ▸ goStartsWith_append p r

theorem takeWhile_http (line : String) (h : goStartsWith line "http" = true) :
    ∃ r, (stripQuery line).data = 'h' :: 't' :: 't' :: 'p' :: r := by
  rw [goStartsWith] at h
  obtain ⟨t, ht⟩ := List.isPrefixOf_iff_prefix.mp h
  have hdata : line.data = 'h' :: 't' :: 't' :: 'p' :: t := by
    rw [← ht]; rfl
  refine ⟨t.takeWhile (fun c => c != '?'), ?_⟩
  rw [stripQuery, hdata]
  simp [List.takeWhile_cons]

theorem stripQuery_http {line : String} (h : goStartsWith line "http" = true) :
    goStartsWith (stripQuery line) "http" = true := by
  obtain ⟨r, hr⟩ := takeWhile_http line h
  rw [goStartsWith, hr]
  exact List.isPrefixOf_iff_prefix.mpr ⟨r, rfl⟩

theorem stripQuery_http_not_slash {line : String} (h : goStartsWith line "http" = true) :
    goStartsWith (stripQuery line) "/" = false := by
  obtain ⟨r, hr⟩ := takeWhile_http line h
  rw [goStartsWith, hr]
  rfl

/-! ## Shape of the encoded query string -/

theorem str_assoc (a b c : String) : a ++ b ++ c = a ++ (b ++ c) :=
  string_data_inj (by simp [data_append])

theorem intercalate_three (x y z : String) :
    String.intercalate "&" [x, y, z] = x ++ "&" ++ y ++ "&" ++ z := rfl

theorem sortByKey_three (tv ev sv : String) :
    sortByKey [("token", tv), ("expires", ev), ("sig", sv)] =
      [("expires", ev), ("sig", sv), ("token", tv)] := by
  have h1 : insertByKey ("sig", sv) [] = [("sig", sv)] := rfl
  have h2 : insertByKey ("expires", ev) [("sig", sv)] = [("expires", ev), ("sig", sv)] := by
    rw [insertByKey, if_pos (by decide : keyLe "expires" "sig" = true)]
  have h3 : insertByKey ("token", tv) [("expires", ev), ("sig", sv)] =
      [("expires", ev), ("sig", sv), ("token", tv)] := by
    rw [insertByKey, if_neg (by decide : ¬ keyLe "token" "expires" = true),
      insertByKey, if_neg (by decide : ¬ keyLe "token" "sig" = true), insertByKey]
  show insertByKey ("token", tv) (insertByKey ("expires", ev)
      (insertByKey ("sig", sv) (sortByKey []))) = _
  rw [show sortByKey ([] : List (String × String)) = [] from rfl, h1, h2, h3]

theorem urlValuesEncode_three (tv ev sv : String) :
    urlValuesEncode [("token", tv), ("expires", ev), ("sig", sv)] =
      "expires=" ++ queryEscape ev ++ "&sig=" ++ queryEscape sv ++ "&token=" ++
        queryEscape tv := by
  have hE : ∀ x : String, queryEscape "expires" ++ ("=" ++ x) = "expires=" ++ x := by
    intro x
    rw [← str_assoc, show queryEscape "expires" ++ "=" = "expires=" by decide]
  have hS : ∀ x : String, queryEscape "sig" ++ ("=" ++ x) = "sig=" ++ x := by
    intro x
    rw [← str_assoc, show queryEscape "sig" ++ "=" = "sig=" by decide]
  have hT : ∀ x : String, queryEscape "token" ++ ("=" ++ x) = "token=" ++ x := by
    intro x
    rw [← str_assoc, show queryEscape "token" ++ "=" = "token=" by decide]
  have hAS : ∀ x : String, "&" ++ ("sig=" ++ x) = "&sig=" ++ x := by
    intro x
    rw [← str_assoc, show ("&" : String) ++ "sig=" = "&sig=" by decide]
  have hAT : ∀ x : String, "&" ++ ("token=" ++ x) = "&token=" ++ x := by
    intro x
    rw [← str_assoc, show ("&" : String) ++ "token=" = "&token=" by decide]
  rw [urlValuesEncode, sortByKey_three]
  simp only [List.map]
  rw [intercalate_three]
  simp only [str_assoc, hE, hS, hT, hAS, hAT]

theorem escape_chars_eq_self (l : List Char)
    (h : ∀ c ∈ l, (48 ≤ c.toNat ∧ c.toNat ≤ 57) ∨ c.toNat = 45) :
    ((l.map (fun c => utf8Bytes c.toNat)).flatten.map escapeByte).flatten = l := by
  induction l with
  | nil => rfl
  | cons c cs ih =>
      have hc := h c (List.mem_cons_self c cs)
      have hlt : c.toNat < 0x80 := by omega
      have hunres : isUnreservedByte c.toNat = true := by
        rw [isUnreservedByte]
        simp only [Bool.or_eq_true, Bool.and_eq_true, decide_eq_true_eq, beq_iff_eq]
        omega
      simp only [List.map_cons, List.flatten_cons]
      rw [utf8Bytes, if_pos hlt]
      simp only [List.singleton_append, List.map_cons, List.flatten_cons]
      rw [escapeByte, if_pos hunres]
      rw [Char.ofNat_toNat]
      simp only [List.singleton_append, List.cons.injEq, true_and]
      exact ih (fun d hd => h d (List.mem_cons_of_mem _ hd))

/-- `url.QueryEscape` is the identity on strings made of decimal digits
    and the minus sign (such as a formatted Unix timestamp). -/
theorem queryEscape_eq_self_of (s : String)
    (h : ∀ c ∈ s.data, (48 ≤ c.toNat ∧ c.toNat ≤ 57) ∨ c.toNat = 45) :
    queryEscape s = s :=
  string_data_inj (escape_chars_eq_self s.data h)

theorem intStr_chars (e : Int) :
    ∀ c ∈ (intStr e).data, (48 ≤ c.toNat ∧ c.toNat ≤ 57) ∨ c.toNat = 45 := by
  intro c hc
  rw [intStr] at hc
  split at hc
  · rw [data_append] at hc
    rcases List.mem_append.1 hc with h1 | h2
    · right
      simp at h1
      rw [h1]
      rfl
    · exact Or.inl (natDigits_all_digit _ c h2)
  · exact Or.inl (natDigits_all_digit _ c hc)

/-- C9 (amended). `SignURL` returns
    `{path}?expires={E}&sig={S}&token={T}` — query parameters in the
    key-sorted order `expires`, `sig`, `token` produced by
    `url.Values.Encode`, with `E = now + validity` in decimal and `S`
    the hex MAC of `{stream_id}:{token}:{path}:{E}`. -/
theorem signURL_shape (σ : URLSigner) (now : Int) (streamID token path : String) :
    signURL σ now streamID token path =
      path ++ "?expires=" ++ intStr (now + σ.validity) ++ "&sig=" ++
        queryEscape (σ.mac (signingInput streamID token path (now + σ.validity))) ++
        "&token=" ++ queryEscape token := by
  have hq : ∀ x : String, "?" ++ ("expires=" ++ x) = "?expires=" ++ x := by
    intro x
    rw [← str_assoc, show ("?" : String) ++ "expires=" = "?expires=" by decide]
  rw [signURL]
  show path ++ "?" ++
      urlValuesEncode [("token", token), ("expires", intStr (now + σ.validity)),
        ("sig", σ.mac (signingInput streamID token path (now + σ.validity)))] = _
  rw [urlValuesEncode_three,
    queryEscape_eq_self_of (intStr (now + σ.validity)) (intStr_chars _)]
  simp only [str_assoc, hq]

/-- Counterexample to C9 as stated: at a concrete signing, the query
    string does not begin with `token=`; it begins with `expires=`
    (keys are emitted in sorted order). -/
theorem signURL_shape_counterexample :
    goStartsWith (signURL ⟨fun _ => "deadbeef", 60⟩ 0 "s1" "t" "/stream/s1/hls/seg-0.ts")
        "/stream/s1/hls/seg-0.ts?token=" = false ∧
      signURL ⟨fun _ => "deadbeef", 60⟩ 0 "s1" "t" "/stream/s1/hls/seg-0.ts" =
        "/stream/s1/hls/seg-0.ts?expires=60&sig=deadbeef&token=t" := by
  constructor <;> decide

/-- C5 (amended). A playlist line that is a fully qualified URL
    (leading `http`) and matches the media-URL pattern is NOT passed
    through: it is rewritten into a signed proxy URL whose path embeds
    the entire external URL (query stripped, no `base_dir` prefix). -/
theorem rewriteLine_external_url (σ : URLSigner) (now : Int)
    (streamID token baseDir line : String) (hm : hlsLineMatch line = true)
    (hh : goStartsWith line "http" = true) :
    rewriteLine σ now streamID token baseDir line =
      signURL σ now streamID token ("/stream/" ++ streamID ++ "/hls/" ++ stripQuery line) := by
  rw [rewriteLine, if_pos hm]
  simp only [stripQuery_http hh, stripQuery_http_not_slash hh, Bool.not_true,
    Bool.not_false, Bool.true_and, Bool.and_false, Bool.false_and,
    Bool.and_true, Bool.false_eq_true, if_false]

/-- Witness for C5's amended theorem at a concrete external URL line. -/
theorem rewriteLine_external_url_witness :
    rewriteLine ⟨fun _ => "deadbeef", 60⟩ 0 "s1" "t" "0/" "https://cdn.example.com/seg.ts" =
      signURL ⟨fun _ => "deadbeef", 60⟩ 0 "s1" "t"
        ("/stream/" ++ "s1" ++ "/hls/" ++ stripQuery "https://cdn.example.com/seg.ts") :=
  rewriteLine_external_url ⟨fun _ => "deadbeef", 60⟩ 0 "s1" "t" "0/"
    "https://cdn.example.com/seg.ts" (by decide) (by decide)

/-- Counterexample to C5 as stated: the concrete external URL line is
    not passed through unchanged by the rewriter. -/
theorem rewriteLine_external_url_not_passthrough :
    rewriteLine ⟨fun _ => "deadbeef", 60⟩ 0 "s1" "t" "" "https://cdn.example.com/seg.ts" ≠
      "https://cdn.example.com/seg.ts" := by decide

/-- C6 (amended). Relative-path resolution: a matching URI line is
    prefixed with `base_dir` exactly when the query-stripped line has
    no leading `/` and does not begin with the literal prefix `http` —
    the code's check, which is narrower than "no scheme" (a scheme-less
    name such as `httpx.ts` also skips the prepend); a line with a
    leading `/` is never prefixed; in particular `0/stream.m3u8` with
    empty `base_dir` resolves to `/stream/{id}/hls/0/stream.m3u8` and
    `seg-1.ts` with `base_dir` `0/` resolves to
    `/stream/{id}/hls/0/seg-1.ts`. -/
theorem rewriteLine_base_dir_resolution (σ : URLSigner) (now : Int)
    (streamID token : String) :
    (∀ baseDir line, hlsLineMatch line = true →
      goStartsWith (stripQuery line) "/" = false →
      goStartsWith (stripQuery line) "http" = false →
      rewriteLine σ now streamID token baseDir line =
        signURL σ now streamID token
          ("/stream/" ++ streamID ++ "/hls/" ++ (baseDir ++ stripQuery line))) ∧
    (∀ baseDir line, hlsLineMatch line = true →
      goStartsWith (stripQuery line) "/" = true →
      rewriteLine σ now streamID token baseDir line =
        signURL σ now streamID token ("/stream/" ++ streamID ++ "/hls/" ++ stripQuery line)) ∧
    (rewriteLine σ now streamID token "" "0/stream.m3u8" =
      signURL σ now streamID token ("/stream/" ++ streamID ++ "/hls/" ++ "0/stream.m3u8")) ∧
    (rewriteLine σ now streamID token "0/" "seg-1.ts" =
      signURL σ now streamID token ("/stream/" ++ streamID ++ "/hls/" ++ "0/seg-1.ts")) := by
  have hrel : ∀ baseDir line, hlsLineMatch line = true →
      goStartsWith (stripQuery line) "/" = false →
      goStartsWith (stripQuery line) "http" = false →
      rewriteLine σ now streamID token baseDir line =
        signURL σ now streamID token
          ("/stream/" ++ streamID ++ "/hls/" ++ (baseDir ++ stripQuery line)) := by
    intro baseDir line hm h1 h2
    rw [rewriteLine, if_pos hm]
    simp only [h1, h2, Bool.not_false, Bool.true_and, ite_true, if_true]
  have habs : ∀ baseDir line, hlsLineMatch line = true →
      goStartsWith (stripQuery line) "/" = true →
      rewriteLine σ now streamID token baseDir line =
        signURL σ now streamID token ("/stream/" ++ streamID ++ "/hls/" ++ stripQuery line) := by
    intro baseDir line hm h1
    rw [rewriteLine, if_pos hm]
    simp only [h1, Bool.not_true, Bool.false_and, Bool.false_eq_true, if_false]
  refine ⟨hrel, habs, ?_, ?_⟩
  · exact hrel "" "0/stream.m3u8" (by decide) (by decide) (by decide)
  · exact hrel "0/" "seg-1.ts" (by decide) (by decide) (by decide)

/-- Witness for C6: the two literal resolutions of the claim at a
    concrete signer and stream. -/
theorem rewriteLine_base_dir_resolution_witness :
    rewriteLine ⟨fun _ => "deadbeef", 60⟩ 0 "s1" "t" "" "0/stream.m3u8" =
        signURL ⟨fun _ => "deadbeef", 60⟩ 0 "s1" "t" "/stream/s1/hls/0/stream.m3u8" ∧
      rewriteLine ⟨fun _ => "deadbeef", 60⟩ 0 "s1" "t" "0/" "seg-1.ts" =
        signURL ⟨fun _ => "deadbeef", 60⟩ 0 "s1" "t" "/stream/s1/hls/0/seg-1.ts" :=
  ⟨(rewriteLine_base_dir_resolution ⟨fun _ => "deadbeef", 60⟩ 0 "s1" "t").1 ""
      "0/stream.m3u8" (by decide) (by decide) (by decide),
    (rewriteLine_base_dir_resolution ⟨fun _ => "deadbeef", 60⟩ 0 "s1" "t").1 "0/"
      "seg-1.ts" (by decide) (by decide) (by decide)⟩

/-- Counterexample to C6 as stated: the line `httpx.ts` is relative
    (no leading `/`, no scheme), yet with `base_dir` `0/` the rewriter
    does not prepend the base directory — the code's check is the
    literal prefix `http`, not a scheme — so the line resolves to the
    proxy path `/stream/s1/hls/httpx.ts` instead of the claim's
    `/stream/s1/hls/0/httpx.ts`. -/
theorem rewriteLine_base_dir_http_prefix_counterexample :
    rewriteLine ⟨fun _ => "deadbeef", 60⟩ 0 "s1" "t" "0/" "httpx.ts" =
        signURL ⟨fun _ => "deadbeef", 60⟩ 0 "s1" "t" "/stream/s1/hls/httpx.ts" ∧
      rewriteLine ⟨fun _ => "deadbeef", 60⟩ 0 "s1" "t" "0/" "httpx.ts" ≠
        signURL ⟨fun _ => "deadbeef", 60⟩ 0 "s1" "t" "/stream/s1/hls/0/httpx.ts" := by
  constructor <;> decide

/-! ## Claims about the HLS gateway -/

/-- C3. Playlist session gate: for a playlist request (path ending in
    `.m3u8`) on a live stream whose signature verifies, a missing
    session yields 401, a session bound to a different stream yields
    403, and only a matching session reaches the upstream fetch, whose
    result (rewritten) is returned. -/
theorem serveHLS_playlist_session_gate (E : HLSEnv) (reqPath : String)
    (q : QueryParams) (streamID hlsPath : String) (u : UUID) (stream : Stream)
    (hparse : parseStreamPath reqPath = some (streamID, hlsPath))
    (hm3u8 : goEndsWith hlsPath ".m3u8" = true)
    (huuid : E.uuidParse streamID = some u)
    (hstream : E.getStream u = some stream)
    (hlive : stream.status = .live)
    (hsig : verifyURLFromRequest E.signer E.now streamID
      ("/stream/" ++ streamID ++ "/hls/" ++ hlsPath) q = none) :
    (E.getSession q.token = none → serveHLS E reqPath q = ⟨401, "Session expired"⟩) ∧
    (∀ s, E.getSession q.token = some s → s.streamID ≠ streamID →
      serveHLS E reqPath q = ⟨403, "Token not valid for this stream"⟩) ∧
    (∀ s, E.getSession q.token = some s → s.streamID = streamID →
      serveHLS E reqPath q =
        match E.fetch (trimSuffixSlash stream.owncastURL ++ "/hls/" ++ hlsPath) with
        | none => ⟨502, "Failed to fetch stream"⟩
        | some content =>
            ⟨200, rewritePlaylist E.signer E.now stream.id.str q.token
              (baseDirOf hlsPath) content⟩) := by
  refine ⟨?_, ?_, ?_⟩
  · intro hsess
    simp [serveHLS, hparse, huuid, hstream, hlive, hsig, hm3u8, hsess]
  · intro s hsess hne
    simp [serveHLS, hparse, huuid, hstream, hlive, hsig, hm3u8, hsess, hne]
  · intro s hsess heq
    simp [serveHLS, hparse, huuid, hstream, hlive, hsig, hm3u8, hsess, heq]

/-- Witness for C3 at a fully concrete request: no session gives 401, a
    session for stream `s2` gives 403, a matching session returns the
    rewritten upstream playlist. -/
theorem serveHLS_playlist_session_gate_witness :
    serveHLS wEnvNoSession "/stream/s1/hls/stream.m3u8" wQuery =
        ⟨401, "Session expired"⟩ ∧
      serveHLS wEnvWrongStream "/stream/s1/hls/stream.m3u8" wQuery =
        ⟨403, "Token not valid for this stream"⟩ ∧
      serveHLS wEnvMatch "/stream/s1/hls/stream.m3u8" wQuery =
        ⟨200, rewritePlaylist wSigner 0 "s1" "t" "" "#EXTM3U"⟩ :=
  ⟨(serveHLS_playlist_session_gate wEnvNoSession "/stream/s1/hls/stream.m3u8" wQuery
      "s1" "stream.m3u8" ⟨"s1"⟩ wStream rfl rfl rfl rfl rfl rfl).1 rfl,
    (serveHLS_playlist_session_gate wEnvWrongStream "/stream/s1/hls/stream.m3u8" wQuery
      "s1" "stream.m3u8" ⟨"s1"⟩ wStream rfl rfl rfl rfl rfl rfl).2.1
      ⟨"t", "s2", "e", "p", 999⟩ rfl (by decide),
    (serveHLS_playlist_session_gate wEnvMatch "/stream/s1/hls/stream.m3u8" wQuery
      "s1" "stream.m3u8" ⟨"s1"⟩ wStream rfl rfl rfl rfl rfl rfl).2.2
      ⟨"t", "s1", "e", "p", 999⟩ rfl rfl⟩

/-! ## Claims about device binding -/

/-- C4. Heartbeat device validation at time `T` with device `D`: no
    binding accepts and stores `(D, last_seen = T)`; the same device
    accepts and refreshes `last_seen`; a different device is accepted
    as a takeover (overwriting the binding) only when
    `T - last_seen > heartbeat_timeout`; otherwise it is rejected with
    the waiting time `heartbeat_timeout - (T - last_seen)` and the
    binding is untouched. -/
theorem validateDevice_spec (timeout now : Int) (cur : Option DeviceInfo)
    (D ip ua : String) :
    (cur = none →
      (validateDevice timeout now cur D ip ua).1.allowed = true ∧
      (validateDevice timeout now cur D ip ua).2 = some ⟨D, ip, ua, now⟩) ∧
    (∀ b, cur = some b → b.deviceID = D →
      (validateDevice timeout now cur D ip ua).1.allowed = true ∧
      (validateDevice timeout now cur D ip ua).2 = some { b with lastSeen := now }) ∧
    (∀ b, cur = some b → b.deviceID ≠ D → now - b.lastSeen > timeout →
      (validateDevice timeout now cur D ip ua).1.allowed = true ∧
      (validateDevice timeout now cur D ip ua).1.timedOut = true ∧
      (validateDevice timeout now cur D ip ua).2 = some ⟨D, ip, ua, now⟩) ∧
    (∀ b, cur = some b → b.deviceID ≠ D → ¬ now - b.lastSeen > timeout →
      (validateDevice timeout now cur D ip ua).1.allowed = false ∧
      (validateDevice timeout now cur D ip ua).1.waitTime =
        timeout - (now - b.lastSeen) ∧
      (validateDevice timeout now cur D ip ua).2 = some b) := by
  refine ⟨?_, ?_, ?_, ?_⟩
  · intro h
    subst h
    simp [validateDevice]
  · intro b hb hd
    subst hb
    simp [validateDevice, hd]
  · intro b hb hd ht
    subst hb
    simp [validateDevice, hd, ht]
  · intro b hb hd ht
    subst hb
    simp [validateDevice, hd, ht]

/-- Witness for C4: the four branches at concrete timestamps with the
    default 45-second timeout — fresh binding, same-device refresh,
    takeover after 90 s of silence, and a conflict with a 25-second
    wait. -/
theorem validateDevice_spec_witness :
    ((validateDevice 45 100 none "A" "i" "u").1.allowed = true ∧
      (validateDevice 45 100 none "A" "i" "u").2 = some ⟨"A", "i", "u", 100⟩) ∧
    ((validateDevice 45 100 (some ⟨"A", "i0", "u0", 50⟩) "A" "i" "u").1.allowed = true ∧
      (validateDevice 45 100 (some ⟨"A", "i0", "u0", 50⟩) "A" "i" "u").2 =
        some ⟨"A", "i0", "u0", 100⟩) ∧
    ((validateDevice 45 100 (some ⟨"A", "i0", "u0", 10⟩) "B" "i" "u").1.allowed = true ∧
      (validateDevice 45 100 (some ⟨"A", "i0", "u0", 10⟩) "B" "i" "u").1.timedOut = true ∧
      (validateDevice 45 100 (some ⟨"A", "i0", "u0", 10⟩) "B" "i" "u").2 =
        some ⟨"B", "i", "u", 100⟩) ∧
    ((validateDevice 45 100 (some ⟨"A", "i0", "u0", 80⟩) "B" "i" "u").1.allowed = false ∧
      (validateDevice 45 100 (some ⟨"A", "i0", "u0", 80⟩) "B" "i" "u").1.waitTime = 25 ∧
      (validateDevice 45 100 (some ⟨"A", "i0", "u0", 80⟩) "B" "i" "u").2 =
        some ⟨"A", "i0", "u0", 80⟩) :=
  ⟨(validateDevice_spec 45 100 none "A" "i" "u").1 rfl,
    (validateDevice_spec 45 100 (some ⟨"A", "i0", "u0", 50⟩) "A" "i" "u").2.1
      ⟨"A", "i0", "u0", 50⟩ rfl rfl,
    (validateDevice_spec 45 100 (some ⟨"A", "i0", "u0", 10⟩) "B" "i" "u").2.2.1
      ⟨"A", "i0", "u0", 10⟩ rfl (by decide) (by decide),
    (validateDevice_spec 45 100 (some ⟨"A", "i0", "u0", 80⟩) "B" "i" "u").2.2.2
      ⟨"A", "i0", "u0", 80⟩ rfl (by decide) (by decide)⟩

/-! ## Claims about the heartbeat body handling -/

/-- C10. For a heartbeat whose token has a matching session: an absent
    body, malformed JSON, or a decoded body without a device_id all
    leave the device id empty, so no device validation runs, the
    binding store is untouched, and the response is the 200 success
    body; conversely a 409 can only arise from a request that supplied
    a non-empty device_id. -/
theorem heartbeat_lenient_body (E : HeartbeatEnv) (streamID : String)
    (cookieToken : Option String) (queryToken : String) (body : Option String)
    (ip ua : String) (s : SessionData) (u : UUID)
    (htok : heartbeatToken cookieToken queryToken ≠ "")
    (hsess : E.getSession (heartbeatToken cookieToken queryToken) = some s)
    (hmatch : s.streamID = streamID)
    (huuid : E.uuidParse s.streamID = some u) :
    ((body = none ∨ (∃ b, body = some b ∧ E.decodeBody b = none) ∨
        (∃ b r, body = some b ∧ E.decodeBody b = some r ∧ r.deviceID = "")) →
      heartbeat E streamID cookieToken queryToken body ip ua =
        (heartbeatOK E streamID (heartbeatToken cookieToken queryToken), E.deviceOf)) ∧
    ((heartbeat E streamID cookieToken queryToken body ip ua).1.status = 409 →
      ∃ b r, body = some b ∧ E.decodeBody b = some r ∧ r.deviceID ≠ "") := by
  subst hmatch
  constructor
  · intro hbody
    rcases hbody with hb | ⟨b, hb, hdec⟩ | ⟨b, r, hb, hdec, hdev⟩
    · subst hb
      simp [heartbeat, htok, hsess, huuid]
    · subst hb
      simp [heartbeat, htok, hsess, huuid, hdec]
    · subst hb
      simp [heartbeat, htok, hsess, huuid, hdec, hdev]
  · intro h409
    cases hb : body with
    | none =>
        rw [hb] at h409
        simp [heartbeat, heartbeatOK, htok, hsess, huuid] at h409
    | some b =>
        rw [hb] at h409
        cases hdec : E.decodeBody b with
        | none =>
            simp [heartbeat, heartbeatOK, htok, hsess, huuid, hdec] at h409
        | some r =>
            by_cases hdev : r.deviceID = ""
            · simp [heartbeat, heartbeatOK, htok, hsess, huuid, hdec, hdev] at h409
            · exact ⟨b, r, rfl, hdec, hdev⟩

/-- Witness for C10: with a matching session, a heartbeat with no body
    succeeds and leaves the binding store unchanged; with a conflicting
    binding and a body that names device B, the 409 implies the body
    supplied a non-empty device id. -/
theorem heartbeat_lenient_body_witness :
    heartbeat (wHbEnv none (fun _ => none)) "s1" (some "t") "" none "ip" "ua" =
        (heartbeatOK (wHbEnv none (fun _ => none)) "s1" "t",
          (wHbEnv none (fun _ => none)).deviceOf) ∧
      (∃ b r, (some "x" : Option String) = some b ∧
        (wHbEnv (some ⟨"A", "i0", "u0", 0⟩) (fun _ => some ⟨"B"⟩)).decodeBody b = some r ∧
        r.deviceID ≠ "") :=
  ⟨(heartbeat_lenient_body (wHbEnv none (fun _ => none)) "s1" (some "t") "" none
      "ip" "ua" ⟨"t", "s1", "e", "p", 999⟩ ⟨"s1"⟩ (by decide) rfl rfl rfl).1
      (Or.inl rfl),
    (heartbeat_lenient_body (wHbEnv (some ⟨"A", "i0", "u0", 0⟩) (fun _ => some ⟨"B"⟩))
      "s1" (some "t") "" (some "x") "ip" "ua" ⟨"t", "s1", "e", "p", 999⟩ ⟨"s1"⟩
      (by decide) rfl rfl rfl).2 rfl⟩

/-! ## Claims about the recovery rate limiter -/

/-- C7. The rate limiter is an atomic check-then-increment: at the
    limit the call is denied without incrementing; below it the counter
    is incremented, the window TTL being set only by the increment that
    creates the key; in the recovery handler a denied check returns 429
    before any payment lookup (for every payment store), leaving the
    counter untouched; and from an empty counter with the default limit
    of 5 per hour, six calls within the window yield five allows and a
    sixth denial. -/
theorem rateLimit_atomic_check_then_increment :
    (∀ (st : Option RLEntry) (now : Int) (limit : Nat) (w : Int) (e : RLEntry),
      rlLive st now = some e → e.count ≥ limit →
      checkAndIncrementRateLimit st now limit w = (false, some e)) ∧
    (∀ (st : Option RLEntry) (now : Int) (limit : Nat) (w : Int) (e : RLEntry),
      rlLive st now = some e → e.count < limit →
      checkAndIncrementRateLimit st now limit w =
        (true, some { e with count := e.count + 1 })) ∧
    (∀ (st : Option RLEntry) (now : Int) (limit : Nat) (w : Int),
      rlLive st now = none →
      checkAndIncrementRateLimit st now limit w = (true, some ⟨1, now + w⟩)) ∧
    (∀ (E : RecoveryEnv) (r : RecoverRequest) (clientIP : String) (st : RLState)
        (e : RLEntry),
      r.streamSlug ≠ "" → r.email ≠ "" →
      rlLive (st (rlKey "recover:email:" (E.hashEmail r.email))) E.now = some e →
      e.count ≥ E.perEmailLimit →
      (recoverToken E (some r) clientIP st).1 =
          ⟨429, jsonError "Too many recovery attempts. Please try again later."⟩ ∧
        (recoverToken E (some r) clientIP st).2
          (rlKey "recover:email:" (E.hashEmail r.email)) = some e) ∧
    (∀ t0 t1 t2 t3 t4 t5 : Int,
      t1 < t0 + 3600 → t2 < t0 + 3600 → t3 < t0 + 3600 → t4 < t0 + 3600 →
      t5 < t0 + 3600 →
      applyRL 5 3600 [t0, t1, t2, t3, t4, t5] none =
        ([true, true, true, true, true, false], some ⟨5, t0 + 3600⟩)) := by
  have step1 : ∀ (st : Option RLEntry) (now : Int) (limit : Nat) (w : Int) (e : RLEntry),
      rlLive st now = some e → e.count ≥ limit →
      checkAndIncrementRateLimit st now limit w = (false, some e) := by
    intro st now limit w e hlive hcnt
    rw [checkAndIncrementRateLimit, hlive]
    show (if e.count ≥ limit then ((false : Bool), some e)
      else ((true : Bool), some { e with count := e.count + 1 })) = (false, some e)
    rw [if_pos hcnt]
  have step2 : ∀ (st : Option RLEntry) (now : Int) (limit : Nat) (w : Int) (e : RLEntry),
      rlLive st now = some e → e.count < limit →
      checkAndIncrementRateLimit st now limit w =
        (true, some { e with count := e.count + 1 }) := by
    intro st now limit w e hlive hcnt
    rw [checkAndIncrementRateLimit, hlive]
    show (if e.count ≥ limit then ((false : Bool), some e)
      else ((true : Bool), some { e with count := e.count + 1 })) =
      (true, some { e with count := e.count + 1 })
    rw [if_neg (by omega)]
  have step3 : ∀ (st : Option RLEntry) (now : Int) (limit : Nat) (w : Int),
      rlLive st now = none →
      checkAndIncrementRateLimit st now limit w = (true, some ⟨1, now + w⟩) := by
    intro st now limit w hlive
    rw [checkAndIncrementRateLimit, hlive]
  refine ⟨step1, step2, step3, ?_, ?_⟩
  · intro E r clientIP st e hslug hemail hlive hcnt
    have hrl : checkRecoveryRateLimit st E.now (E.hashEmail r.email) clientIP
        E.perEmailLimit E.perIPLimit =
        (false, fun k => if k = rlKey "recover:email:" (E.hashEmail r.email)
          then some e else st k) := by
      rw [checkRecoveryRateLimit]
      simp only [step1 _ _ _ _ e hlive hcnt, Bool.not_false, if_true]
    simp only [recoverToken, if_neg hslug, if_neg hemail, hrl, Bool.not_false, if_true]
    exact ⟨by trivial, by simp⟩
  · intro t0 t1 t2 t3 t4 t5 h1 h2 h3 h4 h5
    simp only [applyRL]
    rw [step3 none t0 5 3600 rfl]
    rw [step2 _ t1 5 3600 ⟨1, t0 + 3600⟩ (by simp [rlLive, h1]) (by simp)]
    rw [step2 _ t2 5 3600 ⟨2, t0 + 3600⟩ (by simp [rlLive, h2]) (by simp)]
    rw [step2 _ t3 5 3600 ⟨3, t0 + 3600⟩ (by simp [rlLive, h3]) (by simp)]
    rw [step2 _ t4 5 3600 ⟨4, t0 + 3600⟩ (by simp [rlLive, h4]) (by simp)]
    rw [step1 _ t5 5 3600 ⟨5, t0 + 3600⟩ (by simp [rlLive, h5]) (by simp)]

/-- Witness for C7: a live counter at the limit denies without
    incrementing; the recovery handler returns 429 on a saturated
    e-mail counter even though the payment store has no entry at all;
    six concrete calls within one hour give five allows then a
    denial. -/
theorem rateLimit_atomic_check_then_increment_witness :
    checkAndIncrementRateLimit (some ⟨5, 3600⟩) 10 5 3600 = (false, some ⟨5, 3600⟩) ∧
      checkAndIncrementRateLimit (some ⟨2, 3600⟩) 10 5 3600 = (true, some ⟨3, 3600⟩) ∧
      checkAndIncrementRateLimit none 7 5 3600 = (true, some ⟨1, 3607⟩) ∧
      ((recoverToken wRecEnv (some ⟨"main", "x@y"⟩) "1.2.3.4"
          (fun k => if k = rlKey "recover:email:" "x@y" then some ⟨5, 3600⟩ else none)).1 =
          ⟨429, jsonError "Too many recovery attempts. Please try again later."⟩ ∧
        (recoverToken wRecEnv (some ⟨"main", "x@y"⟩) "1.2.3.4"
          (fun k => if k = rlKey "recover:email:" "x@y" then some ⟨5, 3600⟩ else none)).2
          (rlKey "recover:email:" "x@y") = some ⟨5, 3600⟩) ∧
      applyRL 5 3600 [0, 600, 1200, 1800, 2400, 3000] none =
        ([true, true, true, true, true, false], some ⟨5, 3600⟩) := by
  obtain ⟨s1, s2, s3, hb, hc⟩ := rateLimit_atomic_check_then_increment
  refine ⟨s1 _ 10 5 3600 ⟨5, 3600⟩ (by decide) (by decide),
    s2 _ 10 5 3600 ⟨2, 3600⟩ (by decide) (by decide),
    s3 none 7 5 3600 rfl, ?_, ?_⟩
  · exact hb wRecEnv ⟨"main", "x@y"⟩ "1.2.3.4" _ ⟨5, 3600⟩ (by decide) (by decide)
      (by decide) (by decide)
  · have := hc 0 600 1200 1800 2400 3000 (by decide) (by decide) (by decide)
      (by decide) (by decide)
    simpa using this

/-! ## Claims about secret non-disclosure -/

theorem marshalStream_erases_secrets (st : Stream) (v k : String) :
    marshalStream { st with owncastURL := v, streamKey := k } = marshalStream st := rfl

/-- C8. The stream's `origin_base_url` (`OwncastURL`) and `stream_key`
    never reach a client-facing response: the JSON encoding of a stream
    is unchanged under any substitution of the two secret fields
    (they carry the `json:"-"` tag), the catalog endpoint's responses
    are therefore independent of them, and every response of the
    HLS gateway — error bodies, rewritten playlists and proxied
    segments — is unchanged when the secrets of every stream are
    replaced (with the upstream content held fixed per HLS path). -/
theorem origin_secrets_not_in_responses :
    (∀ (st : Stream) (v k : String),
      marshalStream { st with owncastURL := v, streamKey := k } = marshalStream st) ∧
    (∀ (E : CatalogEnv) (f g : String → String) (slug : String),
      getStreamInfo ⟨fun s2 => (E.getStreamBySlug s2).map
          (fun st => { st with owncastURL := f s2, streamKey := g s2 })⟩ slug =
        getStreamInfo E slug) ∧
    (∀ (E : HLSEnv) (f g : UUID → String) (F : String → Option String),
      (∀ u st p, E.getStream u = some st →
        F (trimSuffixSlash (f u) ++ "/hls/" ++ p) =
          E.fetch (trimSuffixSlash st.owncastURL ++ "/hls/" ++ p)) →
      ∀ reqPath q,
        serveHLS { E with
            getStream := fun u => (E.getStream u).map
              (fun st => { st with owncastURL := f u, streamKey := g u }),
            fetch := F } reqPath q = serveHLS E reqPath q) := by
  refine ⟨fun st v k => rfl, ?_, ?_⟩
  · intro E f g slug
    rw [getStreamInfo, getStreamInfo]
    by_cases hs : slug = ""
    · simp [hs]
    · simp only [if_neg hs]
      cases hst : E.getStreamBySlug slug with
      | none => simp [hst]
      | some st =>
          simp only [hst, Option.map_some]
          exact congrArg (fun b => Response.mk 200 b)
            (marshalStream_erases_secrets st (f slug) (g slug))
  · intro E f g F hF reqPath q
    cases hp : parseStreamPath reqPath with
    | none => simp [serveHLS, hp]
    | some pr =>
      obtain ⟨sid, hpath⟩ := pr
      cases hu : E.uuidParse sid with
      | none => simp [serveHLS, hp, hu]
      | some u =>
        cases hst : E.getStream u with
        | none => simp [serveHLS, hp, hu, hst]
        | some st =>
          have hfetch := hF u st hpath hst
          simp [serveHLS, hp, hu, hst, hfetch]

/-- Witness for C8: at concrete streams and environments, replacing the
    origin URL and stream key changes neither the marshalled stream,
    nor the catalog response, nor the gateway response. -/
theorem origin_secrets_not_in_responses_witness :
    marshalStream { wStream with owncastURL := "http://secret:9", streamKey := "k2" } =
        marshalStream wStream ∧
      getStreamInfo ⟨fun s2 =>
          ((fun s3 => if s3 = "main" then some wStream else none) s2).map
            (fun st => { st with owncastURL := "x", streamKey := "y" })⟩ "main" =
        getStreamInfo ⟨fun s3 => if s3 = "main" then some wStream else none⟩ "main" ∧
      serveHLS { wEnvMatch with
          getStream := fun u => (wEnvMatch.getStream u).map
            (fun st => { st with owncastURL := "http://other:1", streamKey := "z" }),
          fetch := fun _ => some "#EXTM3U" } "/stream/s1/hls/stream.m3u8" wQuery =
        serveHLS wEnvMatch "/stream/s1/hls/stream.m3u8" wQuery :=
  ⟨origin_secrets_not_in_responses.1 wStream "http://secret:9" "k2",
    origin_secrets_not_in_responses.2.1 ⟨fun s3 => if s3 = "main" then some wStream else none⟩
      (fun _ => "x") (fun _ => "y") "main",
    origin_secrets_not_in_responses.2.2 wEnvMatch (fun _ => "http://other:1")
      (fun _ => "z") (fun _ => some "#EXTM3U") (fun _ _ _ _ => rfl)
      "/stream/s1/hls/stream.m3u8" wQuery⟩

end Paywall
